import Mathlib

/-!
Verification of the PISM polythermal enthalpy model sources.

This file gives a shallow embedding, over exact rationals, of the
thermodynamic state converter and related routines in
`src/base/iceEnthalpyModel.cc`, the particle / enhancement-factor update in
`src/fevor/PISMFEvoR.cc`, and the CDI-backed file opening in
`src/util/io/CDI.cc`, together with theorems settling the specified
properties of those routines.

Machine floating-point numbers are modelled by `ℚ`; the fatal
`PetscEnd()` / `throw RuntimeError` paths are modelled by `Except`.
-/

namespace PISM

/-- Calibration and physical constants, as looked up from the
`NCConfigVariable` object (`config.get("...")`) throughout
`src/base/iceEnthalpyModel.cc`. -/
structure Config where
  water_melting_temperature : ℚ
  beta_CC : ℚ
  water_specific_heat_capacity : ℚ
  ice_specific_heat_capacity : ℚ
  water_latent_heat_fusion : ℚ
  surface_pressure : ℚ
  earth_gravity : ℚ
  ice_density : ℚ
deriving DecidableEq

/-- Embedding of `getPressureFromDepth` (iceEnthalpyModel.cc lines 25-34):
air pressure at or above the surface, hydrostatic overburden pressure
below it. -/
def getPressureFromDepth (config : Config) (depth : ℚ) : ℚ :=
  if depth ≤ 0 then
    config.surface_pressure
  else
    config.surface_pressure + config.ice_density * config.earth_gravity * depth

/-- The triple of outputs of `get_H_s`: pressure-melting temperature and the
liquid and solid enthalpy bounds. -/
structure PhaseBounds where
  T_m : ℚ
  H_l : ℚ
  H_s : ℚ
deriving DecidableEq

/-- Embedding of `get_H_s` (iceEnthalpyModel.cc lines 44-54):
`T_m = T_0 - beta * p`, `H_l = c_w * T_m`, `H_s = -L + H_l`. -/
def get_H_s (config : Config) (p : ℚ) : PhaseBounds :=
  let T_m := config.water_melting_temperature - config.beta_CC * p
  let H_l := config.water_specific_heat_capacity * T_m
  let H_s := - config.water_latent_heat_fusion + H_l
  ⟨T_m, H_l, H_s⟩

/-- The fatal error conditions (`PetscEnd()`) of the converter routines in
iceEnthalpyModel.cc. -/
inductive ConvErr where
  | LiquidWaterError
  | InvalidWaterFraction
  | SupercooledInputError
deriving DecidableEq

instance : DecidableEq (Except ConvErr ℚ) := fun a b =>
  match a, b with
  | .ok x, .ok y => if h : x = y then isTrue (by rw [h]) else isFalse (by simp [h])
  | .ok _, .error _ => isFalse (by simp)
  | .error _, .ok _ => isFalse (by simp)
  | .error e, .error f => if h : e = f then isTrue (by rw [h]) else isFalse (by simp [h])

/-- Embedding of `getAbsTemp` (iceEnthalpyModel.cc lines 69-85): absolute
temperature from enthalpy `H` and pressure `p`; fatal if the enthalpy
equals or exceeds that of liquid water. -/
def getAbsTemp (config : Config) (H p : ℚ) : Except ConvErr ℚ :=
  let b := get_H_s config p
  if H < b.H_s then
    .ok ((H - b.H_s) / config.ice_specific_heat_capacity + b.T_m)
  else if H < b.H_l then
    .ok b.T_m
  else
    .error .LiquidWaterError

/-- Embedding of `getWaterFraction` (iceEnthalpyModel.cc lines 100-116):
liquid water fraction from enthalpy `H` and pressure `p`; fatal if the
enthalpy equals or exceeds that of liquid water. -/
def getWaterFraction (config : Config) (H p : ℚ) : Except ConvErr ℚ :=
  let b := get_H_s config p
  if H ≤ b.H_s then
    .ok 0
  else if H < b.H_l then
    .ok ((H - b.H_s) / config.water_latent_heat_fusion)
  else
    .error .LiquidWaterError

/-- Embedding of `getEnth` (iceEnthalpyModel.cc lines 119-137): enthalpy
from absolute temperature `T`, water fraction `omega` and pressure `p`.
The water-fraction range check runs first, then the supercooling check
against `T_0 + 0.000001`. -/
def getEnth (config : Config) (T omega p : ℚ) : Except ConvErr ℚ :=
  if omega < 0 ∨ 1 < omega then
    .error .InvalidWaterFraction
  else
    let T_0 := config.water_melting_temperature
    if T > T_0 + 1 / 1000000 then
      .error .SupercooledInputError
    else
      let b := get_H_s config p
      let c := (1 - omega) * config.ice_specific_heat_capacity
               + omega * config.water_specific_heat_capacity
      .ok (b.H_s + c * (T - T_0))

/-- Embedding of `getEnth_pa` (iceEnthalpyModel.cc lines 140-157): enthalpy
from pressure-adjusted temperature `T_pa`, water fraction `omega` and
pressure `p`; the supercooling check is against `T_m(p) + 0.000001`. -/
def getEnth_pa (config : Config) (T_pa omega p : ℚ) : Except ConvErr ℚ :=
  if omega < 0 ∨ 1 < omega then
    .error .InvalidWaterFraction
  else
    let b := get_H_s config p
    if T_pa > b.T_m + 1 / 1000000 then
      .error .SupercooledInputError
    else
      let c := (1 - omega) * config.ice_specific_heat_capacity
               + omega * config.water_specific_heat_capacity
      .ok (b.H_s + c * (T_pa - b.T_m))

/-- The calibration constants of the specified end-to-end scenario:
`T_0 = 273.15`, `beta = 7.9e-8`, `L = 3.34e5`, `c_i = 2009`, `c_w = 4170`,
with standard values for the pressure-related constants. -/
def config0 : Config where
  water_melting_temperature := 27315 / 100
  beta_CC := 79 / 1000000000
  water_specific_heat_capacity := 4170
  ice_specific_heat_capacity := 2009
  water_latent_heat_fusion := 334000
  surface_pressure := 0
  earth_gravity := 981 / 100
  ice_density := 910

example : (get_H_s config0 0).H_s = 1610071 / 2 := by
  norm_num [get_H_s, config0]

example : getAbsTemp config0 (1610071 / 2 - 2009) 0 = .ok (5443 / 20) := by
  norm_num [getAbsTemp, get_H_s, config0]

example : getWaterFraction config0 (1610071 / 2 + 1000) 0 = .ok (1 / 334) := by
  norm_num [getWaterFraction, get_H_s, config0]

/-- C2: for every enthalpy `H` and pressure `p`, with the derived triple
`T_m = T_0 - β·p`, `H_l = c_w·T_m`, `H_s = H_l - L` (and the physical
constraint `0 < L`), `getAbsTemp` returns `T_m + (H - H_s)/c_i` when
`H < H_s` and `T_m` when `H_s ≤ H < H_l`, `getWaterFraction` returns `0`
when `H ≤ H_s` and `(H - H_s)/L` when `H_s < H < H_l`, and both fail
fatally with `LiquidWaterError` exactly when `H ≥ H_l`. -/
theorem conversion_law (config : Config) (p H : ℚ)
    (hL : 0 < config.water_latent_heat_fusion) :
    get_H_s config p =
      ⟨config.water_melting_temperature - config.beta_CC * p,
       config.water_specific_heat_capacity
         * (config.water_melting_temperature - config.beta_CC * p),
       config.water_specific_heat_capacity
         * (config.water_melting_temperature - config.beta_CC * p)
         - config.water_latent_heat_fusion⟩
    ∧ (H < (get_H_s config p).H_s →
        getAbsTemp config H p =
          .ok ((get_H_s config p).T_m
               + (H - (get_H_s config p).H_s) / config.ice_specific_heat_capacity))
    ∧ ((get_H_s config p).H_s ≤ H ∧ H < (get_H_s config p).H_l →
        getAbsTemp config H p = .ok (get_H_s config p).T_m)
    ∧ (H ≤ (get_H_s config p).H_s → getWaterFraction config H p = .ok 0)
    ∧ ((get_H_s config p).H_s < H ∧ H < (get_H_s config p).H_l →
        getWaterFraction config H p =
          .ok ((H - (get_H_s config p).H_s) / config.water_latent_heat_fusion))
    ∧ (getAbsTemp config H p = .error .LiquidWaterError ↔ (get_H_s config p).H_l ≤ H)
    ∧ (getWaterFraction config H p = .error .LiquidWaterError ↔ (get_H_s config p).H_l ≤ H) := by
  have hsl : (get_H_s config p).H_s < (get_H_s config p).H_l := by
    simp only [get_H_s]
    linarith
  refine ⟨by simp only [get_H_s]; exact PhaseBounds.mk.injEq .. ▸ ⟨rfl, rfl, by ring⟩,
    ?_, ?_, ?_, ?_, ?_, ?_⟩
  · intro h
    simp only [getAbsTemp, if_pos h]
    rw [add_comm]
  · rintro ⟨h1, h2⟩
    simp only [getAbsTemp, if_neg (not_lt.mpr h1), if_pos h2]
  · intro h
    simp only [getWaterFraction, if_pos h]
  · rintro ⟨h1, h2⟩
    simp only [getWaterFraction, if_neg (not_le.mpr h1), if_pos h2]
  · constructor
    · intro h
      by_contra hc
      push_neg at hc
      simp only [getAbsTemp] at h
      split_ifs at h
    · intro h
      simp only [getAbsTemp,
        if_neg (not_lt.mpr (le_of_lt (lt_of_lt_of_le hsl h))),
        if_neg (not_lt.mpr h)]
  · constructor
    · intro h
      by_contra hc
      push_neg at hc
      simp only [getWaterFraction] at h
      split_ifs at h
    · intro h
      simp only [getWaterFraction,
        if_neg (not_le.mpr (lt_of_lt_of_le hsl h)),
        if_neg (not_lt.mpr h)]

/-- Witness for `conversion_law` at the scenario constants, `p = 0`, and
`H` one degree of sensible heat below the solid bound. -/
theorem conversion_law_witness :
    0 < config0.water_latent_heat_fusion
    ∧ getAbsTemp config0 (1610071 / 2 - 2009) 0 =
        .ok ((get_H_s config0 0).T_m
             + ((1610071 / 2 - 2009) - (get_H_s config0 0).H_s)
               / config0.ice_specific_heat_capacity) := by
  have hL : (0 : ℚ) < config0.water_latent_heat_fusion := by norm_num [config0]
  refine ⟨hL, ?_⟩
  exact (conversion_law config0 0 (1610071 / 2 - 2009) hL).2.1
    (by norm_num [get_H_s, config0])

/-- C5: for fixed pressure `p` (and physical constants `c_i > 0`, `L > 0`),
for all enthalpies `H ≤ H'` with `H' < H_l(p)`, `getAbsTemp` and
`getWaterFraction` are non-decreasing from `H` to `H'`, and for `H < H_l(p)`
the water fraction lies in `[0, 1)`. -/
theorem getAbsTemp_getWaterFraction_monotone (config : Config) (p H H' : ℚ)
    (hci : 0 < config.ice_specific_heat_capacity)
    (hL : 0 < config.water_latent_heat_fusion)
    (hHH : H ≤ H') (hHl : H' < (get_H_s config p).H_l) :
    (∃ T T', getAbsTemp config H p = .ok T ∧ getAbsTemp config H' p = .ok T' ∧ T ≤ T')
    ∧ (∃ w w', getWaterFraction config H p = .ok w ∧ getWaterFraction config H' p = .ok w'
        ∧ w ≤ w')
    ∧ (∃ w, getWaterFraction config H p = .ok w ∧ 0 ≤ w ∧ w < 1) := by
  set b := get_H_s config p with hb
  have hdiff : b.H_l - b.H_s = config.water_latent_heat_fusion := by
    simp only [hb, get_H_s]
    ring
  have hHl1 : H < b.H_l := lt_of_le_of_lt hHH hHl
  refine ⟨?_, ?_, ?_⟩
  · by_cases h1 : H < b.H_s
    · by_cases h2 : H' < b.H_s
      · refine ⟨(H - b.H_s) / config.ice_specific_heat_capacity + b.T_m,
          (H' - b.H_s) / config.ice_specific_heat_capacity + b.T_m,
          by simp only [getAbsTemp, ← hb, if_pos h1],
          by simp only [getAbsTemp, ← hb, if_pos h2], ?_⟩
        have := (div_le_div_iff_of_pos_right hci).mpr (by linarith : H - b.H_s ≤ H' - b.H_s)
        linarith
      · refine ⟨(H - b.H_s) / config.ice_specific_heat_capacity + b.T_m, b.T_m,
          by simp only [getAbsTemp, ← hb, if_pos h1],
          by simp only [getAbsTemp, ← hb, if_neg h2, if_pos hHl], ?_⟩
        have : (H - b.H_s) / config.ice_specific_heat_capacity < 0 :=
          div_neg_of_neg_of_pos (by linarith) hci
        linarith
    · have h2 : ¬ H' < b.H_s := fun hc => h1 (lt_of_le_of_lt hHH hc)
      exact ⟨b.T_m, b.T_m,
        by simp only [getAbsTemp, ← hb, if_neg h1, if_pos hHl1],
        by simp only [getAbsTemp, ← hb, if_neg h2, if_pos hHl], le_refl _⟩
  · by_cases h1 : H ≤ b.H_s
    · by_cases h2 : H' ≤ b.H_s
      · exact ⟨0, 0, by simp only [getWaterFraction, ← hb, if_pos h1],
          by simp only [getWaterFraction, ← hb, if_pos h2], le_refl _⟩
      · refine ⟨0, (H' - b.H_s) / config.water_latent_heat_fusion,
          by simp only [getWaterFraction, ← hb, if_pos h1],
          by simp only [getWaterFraction, ← hb, if_neg h2, if_pos hHl], ?_⟩
        push_neg at h2
        exact div_nonneg (by linarith) (le_of_lt hL)
    · have h2 : ¬ H' ≤ b.H_s := fun hc => h1 (le_trans hHH hc)
      refine ⟨(H - b.H_s) / config.water_latent_heat_fusion,
        (H' - b.H_s) / config.water_latent_heat_fusion,
        by simp only [getWaterFraction, ← hb, if_neg h1, if_pos hHl1],
        by simp only [getWaterFraction, ← hb, if_neg h2, if_pos hHl], ?_⟩
      exact (div_le_div_iff_of_pos_right hL).mpr (by linarith)
  · by_cases h1 : H ≤ b.H_s
    · exact ⟨0, by simp only [getWaterFraction, ← hb, if_pos h1], le_refl 0, by norm_num⟩
    · push_neg at h1
      refine ⟨(H - b.H_s) / config.water_latent_heat_fusion,
        by simp only [getWaterFraction, ← hb, if_neg (not_le.mpr h1), if_pos hHl1],
        div_nonneg (by linarith) (le_of_lt hL), ?_⟩
      exact (div_lt_one hL).mpr (by linarith)

/-- Witness for `getAbsTemp_getWaterFraction_monotone` at the scenario
constants, `p = 0`, `H` in the cold range and `H'` in the temperate range. -/
theorem getAbsTemp_getWaterFraction_monotone_witness :
    0 < config0.ice_specific_heat_capacity
    ∧ 0 < config0.water_latent_heat_fusion
    ∧ (1610071 / 2 - 2009 : ℚ) ≤ 1610071 / 2 + 1000
    ∧ (1610071 / 2 + 1000 : ℚ) < (get_H_s config0 0).H_l
    ∧ (∃ T T', getAbsTemp config0 (1610071 / 2 - 2009) 0 = .ok T
        ∧ getAbsTemp config0 (1610071 / 2 + 1000) 0 = .ok T' ∧ T ≤ T') := by
  have h1 : (0 : ℚ) < config0.ice_specific_heat_capacity := by norm_num [config0]
  have h2 : (0 : ℚ) < config0.water_latent_heat_fusion := by norm_num [config0]
  have h3 : (1610071 / 2 - 2009 : ℚ) ≤ 1610071 / 2 + 1000 := by norm_num
  have h4 : (1610071 / 2 + 1000 : ℚ) < (get_H_s config0 0).H_l := by
    norm_num [get_H_s, config0]
  exact ⟨h1, h2, h3, h4,
    (getAbsTemp_getWaterFraction_monotone config0 0 _ _ h1 h2 h3 h4).1⟩

/-- C4 counterexample: at `T = 274.15` (which exceeds `T_0 + 0.000001`)
and `omega = 2`, `getEnth` fails with `InvalidWaterFraction`, not with
`SupercooledInputError`: the water-fraction check runs first, so the claimed
"fails with SupercooledInputError if and only if T exceeds the bound" is
false in the right-to-left direction. -/
theorem getEnth_supercooled_iff_false :
    config0.water_melting_temperature + 1 / 1000000 < (5483 / 20 : ℚ)
    ∧ getEnth config0 (5483 / 20) 2 0 = .error .InvalidWaterFraction
    ∧ ¬ getEnth config0 (5483 / 20) 2 0 = .error .SupercooledInputError := by
  have henth : getEnth config0 (5483 / 20) 2 0 = .error .InvalidWaterFraction := by
    norm_num [getEnth, config0]
  refine ⟨by norm_num [config0], henth, ?_⟩
  rw [henth]
  simp

/-- C4 (amended): `getEnth` and `getEnth_pa` fail with
`InvalidWaterFraction` iff `omega < 0` or `omega > 1`; they fail with
`SupercooledInputError` iff `omega ∈ [0,1]` AND the temperature argument
exceeds the locally valid melting bound (`T_0` for `getEnth`, `T_m(p)` for
`getEnth_pa`) by more than `0.000001` (the water-fraction check runs
first); otherwise they return
`H_s(p) + ((1-omega)·c_i + omega·c_w)·(T - reference)`. -/
theorem getEnth_getEnth_pa_validation (config : Config) (T omega p : ℚ) :
    (getEnth config T omega p = .error .InvalidWaterFraction ↔ omega < 0 ∨ 1 < omega)
    ∧ (getEnth config T omega p = .error .SupercooledInputError ↔
        (0 ≤ omega ∧ omega ≤ 1)
        ∧ config.water_melting_temperature + 1 / 1000000 < T)
    ∧ ((0 ≤ omega ∧ omega ≤ 1) →
        T ≤ config.water_melting_temperature + 1 / 1000000 →
        getEnth config T omega p =
          .ok ((get_H_s config p).H_s
               + ((1 - omega) * config.ice_specific_heat_capacity
                  + omega * config.water_specific_heat_capacity)
                 * (T - config.water_melting_temperature)))
    ∧ (getEnth_pa config T omega p = .error .InvalidWaterFraction ↔ omega < 0 ∨ 1 < omega)
    ∧ (getEnth_pa config T omega p = .error .SupercooledInputError ↔
        (0 ≤ omega ∧ omega ≤ 1) ∧ (get_H_s config p).T_m + 1 / 1000000 < T)
    ∧ ((0 ≤ omega ∧ omega ≤ 1) →
        T ≤ (get_H_s config p).T_m + 1 / 1000000 →
        getEnth_pa config T omega p =
          .ok ((get_H_s config p).H_s
               + ((1 - omega) * config.ice_specific_heat_capacity
                  + omega * config.water_specific_heat_capacity)
                 * (T - (get_H_s config p).T_m))) := by
  have hrange : (omega < 0 ∨ 1 < omega) ↔ ¬ (0 ≤ omega ∧ omega ≤ 1) := by
    constructor
    · rintro (h | h) ⟨h1, h2⟩ <;> linarith
    · intro h
      by_contra hc
      push_neg at hc
      exact h ⟨hc.1, hc.2⟩
  refine ⟨?_, ?_, ?_, ?_, ?_, ?_⟩
  · simp only [getEnth]
    split_ifs with h1 h2 <;> simp_all
  · simp only [getEnth]
    split_ifs with h1 h2
    · simp only [hrange] at h1
      simp [h1]
    · rw [hrange] at h1
      push_neg at h1
      simp [gt_iff_lt] at h2
      simp [h1, h2]
    · rw [hrange] at h1
      push_neg at h1
      simp [gt_iff_lt, not_lt] at h2
      simp only [h1, true_and]
      constructor
      · intro h
        exact absurd h (by simp)
      · intro h
        linarith
  · intro h1 h2
    simp only [getEnth, if_neg (hrange.not_left.mpr (by simpa using h1)),
      if_neg (not_lt.mpr h2)]
  · simp only [getEnth_pa]
    split_ifs with h1 h2 <;> simp_all
  · simp only [getEnth_pa]
    split_ifs with h1 h2
    · simp only [hrange] at h1
      simp [h1]
    · rw [hrange] at h1
      push_neg at h1
      simp [gt_iff_lt] at h2
      simp [h1, h2]
    · rw [hrange] at h1
      push_neg at h1
      simp [gt_iff_lt, not_lt] at h2
      simp only [h1, true_and]
      constructor
      · intro h
        exact absurd h (by simp)
      · intro h
        linarith
  · intro h1 h2
    simp only [getEnth_pa, if_neg (hrange.not_left.mpr (by simpa using h1)),
      if_neg (not_lt.mpr h2)]

/-- Witness for `getEnth_getEnth_pa_validation` at the scenario constants:
`T = 272.15`, `omega = 0`, `p = 0` is valid input and maps to
`H_s(0) - c_i`. -/
theorem getEnth_getEnth_pa_validation_witness :
    (0 ≤ (0 : ℚ) ∧ (0 : ℚ) ≤ 1)
    ∧ (5443 / 20 : ℚ) ≤ config0.water_melting_temperature + 1 / 1000000
    ∧ getEnth config0 (5443 / 20) 0 0 =
        .ok ((get_H_s config0 0).H_s
             + ((1 - 0) * config0.ice_specific_heat_capacity
                + 0 * config0.water_specific_heat_capacity)
               * ((5443 / 20) - config0.water_melting_temperature)) := by
  have h1 : (0 ≤ (0 : ℚ) ∧ (0 : ℚ) ≤ 1) := by norm_num
  have h2 : (5443 / 20 : ℚ) ≤ config0.water_melting_temperature + 1 / 1000000 := by
    norm_num [config0]
  exact ⟨h1, h2, (getEnth_getEnth_pa_validation config0 (5443 / 20) 0 0).2.2.1 h1 h2⟩

/-- C7 counterexample: with the scenario constants, `c_w·T_0 - L` is exactly
`805035.5 = 1610071/2`, not `≈ 805143.55 = 16102871/20` as claimed — it is
off by `108.05`, far beyond floating-point tolerance — and the claimed input
`H = 805143.55 - 2009` decodes to `2734287/10045 ≈ 272.2038`, not `272.15`
(off by `2161/40180 ≈ 0.0538`). -/
theorem end_to_end_scenario_false :
    (get_H_s config0 0).H_s = 1610071 / 2
    ∧ (16102871 / 20 : ℚ) - 1610071 / 2 = 2161 / 20
    ∧ (100 : ℚ) < 2161 / 20
    ∧ getAbsTemp config0 (16102871 / 20 - 2009) 0 = .ok (2734287 / 10045)
    ∧ (2734287 / 10045 : ℚ) - 5443 / 20 = 2161 / 40180
    ∧ (1 / 25 : ℚ) < 2161 / 40180 := by
  refine ⟨by norm_num [get_H_s, config0], by norm_num, by norm_num, ?_, by norm_num,
    by norm_num⟩
  norm_num [getAbsTemp, get_H_s, config0]

/-- C7 (amended): with the scenario constants at `p = 0`, the solid
enthalpy bound is `H_s(0) = c_w·T_0 - L = 805035.5` exactly; the input
enthalpy `H = H_s(0) - 2009` maps to temperature `272.15` and water
fraction `0`; and the input enthalpy `H = H_s(0) + 1000` maps to
temperature `T_0 = 273.15` and water fraction `1000/334000 ≈ 0.002994`. -/
theorem end_to_end_scenario :
    (get_H_s config0 0).H_s = 1610071 / 2
    ∧ (1610071 / 2 : ℚ) = 805035 + 1 / 2
    ∧ getAbsTemp config0 (1610071 / 2 - 2009) 0 = .ok (5443 / 20)
    ∧ getWaterFraction config0 (1610071 / 2 - 2009) 0 = .ok 0
    ∧ getAbsTemp config0 (1610071 / 2 + 1000) 0 = .ok (5463 / 20)
    ∧ getWaterFraction config0 (1610071 / 2 + 1000) 0 = .ok (1000 / 334000) := by
  refine ⟨by norm_num [get_H_s, config0], by norm_num, ?_, ?_, ?_, ?_⟩
  · norm_num [getAbsTemp, get_H_s, config0]
  · norm_num [getWaterFraction, get_H_s, config0]
  · norm_num [getAbsTemp, get_H_s, config0]
  · norm_num [getWaterFraction, get_H_s, config0]

/-- C1: the round-trip invariant FAILS on the code (code bug). With the
scenario constants: the valid input `(T, ω, p) = (273.15, 1/2, 0)` (with
`T` equal to the melting bound `T_0` and `ω ∈ [0,1]`) encodes via `getEnth`
to `H_s(0)`, which decodes via `getWaterFraction` to water fraction `0`,
not `1/2` — `getEnth` drops the latent-heat term `ω·L`, so `ω` is not
recoverable; and the valid input `(272, 0, 10^7)` encodes and then decodes
via `getAbsTemp` to `271.21 = 272 - β·p·(c_w·.../...)`, not `272` —
`getEnth` measures sensible heat from `T_0` while `getAbsTemp` measures it
from `T_m(p)`. Both are far outside floating-point tolerance. -/
theorem roundtrip_invariant_fails :
    ((0 : ℚ) ≤ 1 / 2 ∧ (1 / 2 : ℚ) ≤ 1)
    ∧ (5463 / 20 : ℚ) ≤ config0.water_melting_temperature
    ∧ getEnth config0 (5463 / 20) (1 / 2) 0 = .ok (1610071 / 2)
    ∧ getWaterFraction config0 (1610071 / 2) 0 = .ok 0
    ∧ (0 : ℚ) ≠ 1 / 2
    ∧ (272 : ℚ) ≤ config0.water_melting_temperature
    ∧ getEnth config0 272 0 10000000 = .ok (15988617 / 20)
    ∧ getAbsTemp config0 (15988617 / 20) 10000000 = .ok (27121 / 100)
    ∧ (27121 / 100 : ℚ) ≠ 272 := by
  refine ⟨by norm_num, by norm_num [config0], ?_, ?_, by norm_num,
    by norm_num [config0], ?_, ?_, by norm_num⟩
  · norm_num [getEnth, get_H_s, config0]
  · norm_num [getWaterFraction, get_H_s, config0]
  · norm_num [getEnth, get_H_s, config0]
  · norm_num [getAbsTemp, get_H_s, config0]

/-- The routine that `IceEnthalpyModel::temperatureStep` (iceEnthalpyModel.cc
lines 394-408) dispatches to, depending on `doColdIceTemperatureStep`. -/
inductive TempStepCall where
  | coldIceModelStep
  | enthalpyStepCall
deriving DecidableEq

/-- Embedding of the dispatch in `IceEnthalpyModel::temperatureStep`: the base
class `IceModel::temperatureStep` when `doColdIceTemperatureStep` holds,
otherwise `IceEnthalpyModel::enthalpyStep`. -/
def temperatureStep (doColdIceTemperatureStep : Bool) : TempStepCall :=
  if doColdIceTemperatureStep then .coldIceModelStep else .enthalpyStepCall

/-- The fatal outcome of `IceEnthalpyModel::enthalpyStep`. -/
inductive StepFatal where
  | notImplemented
deriving DecidableEq

/-- Embedding of `IceEnthalpyModel::enthalpyStep` (iceEnthalpyModel.cc lines
411-418): it unconditionally prints "NOT IMPLEMENTED ... ending" and calls
`PetscEnd()`; it never advances the enthalpy field. -/
def enthalpyStep : Except StepFatal Unit :=
  .error .notImplemented

/-- C3: the claim that the enthalpy stepper advances the 3-D enthalpy field
and returns normally is FALSE on the code (code bug): with the enthalpy mode
enabled (`doColdIceTemperatureStep = false`) the per-timestep dispatch does
invoke `enthalpyStep`, but `enthalpyStep` terminates the run fatally with
"NOT IMPLEMENTED" for every input state. -/
theorem enthalpyStep_not_implemented :
    temperatureStep false = .enthalpyStepCall
    ∧ enthalpyStep = .error .notImplemented := by
  exact ⟨rfl, rfl⟩

/-- The horizontal extent and vertical levels used by the sweep in
`IceEnthalpyModel::setEnth3FromT3_ColdIce`. -/
structure EnthGrid where
  Mz : ℕ
  zlevels : List ℚ

/-- Embedding of `IceEnthalpyModel::setEnth3FromT3_ColdIce`
(iceEnthalpyModel.cc lines 357-389): per cell `(i,j,k)`, with depth
`H[i][j] - zlevels[k]`, the new enthalpy is `getEnth(T[i][j][k], 0.0,
getPressureFromDepth(depth))` inside the ice (`depth > 0`) and the sentinel
`0` in the air; the returned flag records the unconditional ghost exchange
(`Enth3.beginGhostComm(); Enth3.endGhostComm()`) that follows the sweep. -/
def setEnth3FromT3_ColdIce (config : Config) (g : EnthGrid)
    (H : ℕ → ℕ → ℚ) (T3 : ℕ → ℕ → List ℚ) :
    (ℕ → ℕ → List (Except ConvErr ℚ)) × Bool :=
  (fun i j =>
    (List.range g.Mz).map (fun k =>
      let depth := H i j - g.zlevels.getD k 0
      if depth > 0 then
        getEnth config ((T3 i j).getD k 0) 0 (getPressureFromDepth config depth)
      else
        .ok 0),
   true)

/-- How `IceEnthalpyModel::initFromFile` obtains the enthalpy field. -/
inductive EnthInitMethod where
  | regridFromFile
  | coldIceFromTemperature
deriving DecidableEq

/-- Embedding of the enthalpy branch of `IceEnthalpyModel::initFromFile`
(iceEnthalpyModel.cc lines 326-348): regrid the `enthalpy` variable when the
input file has it, otherwise derive it by `setEnth3FromT3_ColdIce`. -/
def initFromFile_enthalpy (enthExists : Bool) : EnthInitMethod :=
  if enthExists then .regridFromFile else .coldIceFromTemperature

/-- C6: when the input file has no `enthalpy` variable, `initFromFile` falls
back to deriving enthalpy from temperature as cold ice: every cell with
positive depth below the ice surface gets `getEnth(T, 0.0, p)` with `p` from
the overburden depth, every cell at or above the surface gets the sentinel
`0`, and the sweep is followed by a ghost exchange of the enthalpy field. -/
theorem initFromFile_cold_ice_fallback (config : Config) (g : EnthGrid)
    (H : ℕ → ℕ → ℚ) (T3 : ℕ → ℕ → List ℚ) (i j k : ℕ) (hk : k < g.Mz) :
    initFromFile_enthalpy false = .coldIceFromTemperature
    ∧ ((setEnth3FromT3_ColdIce config g H T3).1 i j).getD k (.ok 0) =
        (if 0 < H i j - g.zlevels.getD k 0 then
          getEnth config ((T3 i j).getD k 0) 0
            (getPressureFromDepth config (H i j - g.zlevels.getD k 0))
        else
          .ok 0)
    ∧ (setEnth3FromT3_ColdIce config g H T3).2 = true := by
  refine ⟨rfl, ?_, rfl⟩
  simp only [setEnth3FromT3_ColdIce]
  rw [List.getD_eq_getElem?_getD, List.getElem?_map, List.getElem?_range hk]
  simp only [Option.map_some', Option.getD_some, gt_iff_lt]

/-- Witness for `initFromFile_cold_ice_fallback`: one vertical level, a cell
of thickness `100` at level `0` (in the ice). -/
theorem initFromFile_cold_ice_fallback_witness :
    (0 : ℕ) < 1
    ∧ ((setEnth3FromT3_ColdIce config0 ⟨1, [0]⟩ (fun _ _ => 100)
          (fun _ _ => [260])).1 0 0).getD 0 (.ok 0) =
        (if 0 < (100 : ℚ) - ([(0 : ℚ)]).getD 0 0 then
          getEnth config0 (([(260 : ℚ)]).getD 0 0) 0
            (getPressureFromDepth config0 ((100 : ℚ) - ([(0 : ℚ)]).getD 0 0))
        else
          .ok 0) := by
  refine ⟨by norm_num, ?_⟩
  exact (initFromFile_cold_ice_fallback config0 ⟨1, [0]⟩ (fun _ _ => 100)
    (fun _ _ => [260]) 0 0 0 (by norm_num)).2.1

/-- The horizontal half-widths, grid spacing and vertical layout of the
distributed grid, as read by `PISMFEvoR` (`grid.Lx`, `grid.Ly`, `grid.Lz`,
`grid.Mz`, `grid.zlevels`). -/
structure FGrid where
  Lx : ℚ
  Ly : ℚ
  Lz : ℚ
  dx : ℚ
  dy : ℚ
  Mz : ℕ
  zlevels : List ℚ

/-- Modelled from the spec: `IceGrid::compute_point_neighbors` is not among
the available sources; per the spec (§4.5) the off-grid query yields the
four enclosing grid indices of `(x,y)`, determined here by the lower-left
corner `(I,J)` of the enclosing cell on the uniform grid with origin
`(-Lx, -Ly)` and spacing `(dx, dy)`. -/
def compute_point_neighbors (g : FGrid) (x y : ℚ) : ℤ × ℤ :=
  (⌊(x + g.Lx) / g.dx⌋, ⌊(y + g.Ly) / g.dy⌋)

/-- Modelled from the spec: `IceGrid::compute_interp_weights` is not among
the available sources; per the spec (§4.5) it returns bilinear weights, here
for the four corners `(I,J)`, `(I+1,J)`, `(I+1,J+1)`, `(I,J+1)` in the order
the weights are consumed by `PISMFEvoR::interp_field_point`. -/
def compute_interp_weights (g : FGrid) (x y : ℚ) : List ℚ :=
  let u := (x + g.Lx) / g.dx - ⌊(x + g.Lx) / g.dx⌋
  let v := (y + g.Ly) / g.dy - ⌊(y + g.Ly) / g.dy⌋
  [(1 - u) * (1 - v), u * (1 - v), u * v, (1 - u) * v]

/-- The error that, per the spec, an off-grid interpolation query should
raise for a point outside the physical domain bounds. -/
inductive DomainErr where
  | OutOfDomainError
deriving DecidableEq

/-- Fuel-indexed embedding of the vertical-level search loop in
`PISMFEvoR::interp_field_point` (PISMFEvoR.cc lines 228-232):
`while (K + 1 < Mz - 1 && zlevels[K + 1] < z) K++`. A fuel of `Mz` is enough
for the bounded loop, so this equals the C loop. -/
def interpKloop (g : FGrid) (z : ℚ) : ℕ → ℕ → ℕ
  | K, 0 => K
  | K, fuel + 1 =>
    if K + 1 < g.Mz - 1 ∧ g.zlevels.getD (K + 1) 0 < z then
      interpKloop g z (K + 1) fuel
    else
      K

/-- Embedding of `PISMFEvoR::interp_field_point` (PISMFEvoR.cc lines
213-244): neighbor indices and bilinear weights from the grid, a vertical
index `K` from the level-search loop, linear interpolation in `z` within
each of the four columns, then the weighted horizontal combination. The
routine has no domain test and no error path: it returns a value for every
query point. -/
def interp_field_point (g : FGrid) (x y z : ℚ)
    (field3 : ℤ → ℤ → List ℚ) : Except DomainErr ℚ :=
  let I := (compute_point_neighbors g x y).1
  let J := (compute_point_neighbors g x y).2
  let weights := compute_interp_weights g x y
  let column0 := field3 I J
  let column1 := field3 (I + 1) J
  let column2 := field3 (I + 1) (J + 1)
  let column3 := field3 I (J + 1)
  let K := interpKloop g z 0 g.Mz
  let z_weight := (z - g.zlevels.getD K 0)
                  / (g.zlevels.getD (K + 1) 0 - g.zlevels.getD K 0)
  let f0 := column0.getD K 0 + z_weight * (column0.getD (K + 1) 0 - column0.getD K 0)
  let f1 := column1.getD K 0 + z_weight * (column1.getD (K + 1) 0 - column1.getD K 0)
  let f2 := column2.getD K 0 + z_weight * (column2.getD (K + 1) 0 - column2.getD K 0)
  let f3 := column3.getD K 0 + z_weight * (column3.getD (K + 1) 0 - column3.getD K 0)
  .ok (weights.getD 0 0 * f0 + weights.getD 1 0 * f1
       + weights.getD 2 0 * f2 + weights.getD 3 0 * f3)

/-- Embedding of the domain assertions guarding each particle position in
`PISMFEvoR::update` (PISMFEvoR.cc lines 163-166): plain C `assert`
statements in the caller, not an error raised by the query itself. -/
def update_domain_check (g : FGrid) (px py pz : ℚ) : Prop :=
  (0 ≤ pz ∧ pz ≤ g.Lz) ∧ (-g.Lx ≤ px ∧ px ≤ g.Lx) ∧ (-g.Ly ≤ py ∧ py ≤ g.Ly)

instance (g : FGrid) (px py pz : ℚ) : Decidable (update_domain_check g px py pz) := by
  unfold update_domain_check
  infer_instance

/-- A concrete unit grid for the C8 counterexample. -/
def fgrid1 : FGrid where
  Lx := 1
  Ly := 1
  Lz := 1
  dx := 1
  dy := 1
  Mz := 2
  zlevels := [0, 1]

/-- C8 counterexample: the query point `(5, 0)` lies outside the physical
domain bounds of `fgrid1` (it fails the caller's domain assertions), yet
`interp_field_point` does not fail with `OutOfDomainError` — it returns a
value. -/
theorem interp_field_point_no_domain_error :
    ¬ update_domain_check fgrid1 5 0 0
    ∧ interp_field_point fgrid1 5 0 0 (fun _ _ => [0, 0]) = .ok 0 := by
  constructor
  · intro h
    have := h.2.1.2
    norm_num [fgrid1] at this
  · norm_num [interp_field_point, compute_point_neighbors, compute_interp_weights,
      interpKloop, fgrid1]

/-- C8 (amended): `interp_field_point` computes the bilinearly weighted
interpolated value and returns it for EVERY query point, whether or not the
point lies inside the physical domain bounds; it never fails with
`OutOfDomainError`. Out-of-domain points are excluded only by `assert`
statements in the caller `PISMFEvoR::update`. -/
theorem interp_field_point_total (g : FGrid) (x y z : ℚ)
    (field3 : ℤ → ℤ → List ℚ) :
    ∃ v, interp_field_point g x y z field3 = .ok v := by
  exact ⟨_, rfl⟩

/-- Embedding of the enhancement-factor clamp in `PISMFEvoR::update`
(PISMFEvoR.cc lines 189-198): a computed ratio below `1.0` is raised to
`1.0`, one above `10.0` is lowered to `10.0`. -/
def enhancement_factor_bound (ratio : ℚ) : ℚ :=
  if ratio < 1 then 1
  else if ratio > 10 then 10
  else ratio

/-- The per-particle enhancement factors `p_e` handed to
`PISMFEvoR::interp_grid_point` after the clamping loop of `update`. -/
def update_p_e (ratios : List ℚ) : List ℚ :=
  ratios.map enhancement_factor_bound

/-- C9: every per-particle enhancement factor finally used for the grid
interpolation lies in `[1, 10]`; a ratio below `1` is raised to exactly `1`
and a ratio above `10` is lowered to exactly `10` before `interp_grid_point`
consumes the list. -/
theorem update_p_e_bounds (ratios : List ℚ) :
    (∀ e ∈ update_p_e ratios, 1 ≤ e ∧ e ≤ 10)
    ∧ (∀ r, r < 1 → enhancement_factor_bound r = 1)
    ∧ (∀ r, 10 < r → enhancement_factor_bound r = 10) := by
  refine ⟨?_, ?_, ?_⟩
  · intro e he
    simp only [update_p_e, List.mem_map] at he
    obtain ⟨r, -, rfl⟩ := he
    unfold enhancement_factor_bound
    split_ifs with h1 h2
    · norm_num
    · norm_num
    · push_neg at h1 h2
      exact ⟨h1, h2⟩
  · intro r h
    simp only [enhancement_factor_bound, if_pos h]
  · intro r h
    simp only [enhancement_factor_bound, if_neg (not_lt.mpr (by linarith : (1:ℚ) ≤ r)),
      if_pos (by exact h)]

/-- Witness for `update_p_e_bounds`: the clamped value of the ratio `1/2`
is in bounds, and the clamps at `1/2` and `20` are exact. -/
theorem update_p_e_bounds_witness :
    ((1 : ℚ) ≤ 1 ∧ (1 : ℚ) ≤ 10)
    ∧ enhancement_factor_bound (1 / 2) = 1
    ∧ enhancement_factor_bound 20 = 10 := by
  have h := update_p_e_bounds [1 / 2]
  refine ⟨?_, h.2.1 (1 / 2) (by norm_num), h.2.2 20 (by norm_num)⟩
  have hm : (1 : ℚ) ∈ update_p_e [1 / 2] := by
    norm_num [update_p_e, enhancement_factor_bound]
  exact h.1 1 hm

/-- The open modes of the PISM I/O layer relevant to `CDI::open_impl`. -/
inductive IO_Mode where
  | PISM_READONLY
  | PISM_READWRITE
  | PISM_READWRITE_MOVE
  | PISM_READWRITE_CLOBBER
deriving DecidableEq

/-- The external CDI library calls made by `CDI::open_impl`, `map_varsID`
and `map_zaxisID`: stream and vlist inquiries, and the name-to-id maps that
the two `map_*` loops build from `vlistNvars`/`vlistInqVarName` and
`vlistNzaxis`/`vlistZaxis`/`zaxisInqName`. -/
structure CDILib where
  streamInqVlist : ℤ → ℤ
  vlistInqTaxis : ℤ → ℤ
  vlistGrid : ℤ → ℤ → ℤ
  varsOf : ℤ → List (String × ℤ)
  zaxesOf : ℤ → List (String × ℤ)

/-- The member state of the `CDI` class mutated by `open_impl`. -/
structure CDIState where
  m_file_id : ℤ
  m_vlistID : ℤ
  m_tID : ℤ
  m_varsID : List (String × ℤ)
  m_zID : List (String × ℤ)
  m_zsID : ℤ
  m_gridID : ℤ
  m_dimsAxis : List (String × ℕ)
deriving DecidableEq

/-- The `RuntimeError` thrown by the CDI backend. -/
inductive CDIErr where
  | RuntimeError (msg : String)
deriving DecidableEq

/-- Embedding of `CDI::open_impl` (CDI.cc lines 53-70): when the mode is
`PISM_READONLY` it throws `RuntimeError` ("file reading not supported with
CDI-PIO in PISM") as its very first statement, leaving every member
unchanged; otherwise it restores the file info into the members (the
`m_zID["zs"]` read in `map_zaxisID` default-inserts `0` when no `zs` axis
exists, as `std::map::operator[]` does). The `fname` argument is unused, as
in the source. -/
def open_impl (lib : CDILib) (st : CDIState) (fname : String) (mode : IO_Mode)
    (FileID : ℤ) (dimsa : List (String × ℕ)) : CDIState × Option CDIErr :=
  if mode = IO_Mode.PISM_READONLY then
    (st, some (.RuntimeError "file reading not supported with CDI-PIO in PISM"))
  else
    let file_id := FileID
    let vlistID := lib.streamInqVlist file_id
    let zID := lib.zaxesOf vlistID
    ({ m_file_id := file_id,
       m_vlistID := vlistID,
       m_tID := lib.vlistInqTaxis vlistID,
       m_varsID := lib.varsOf vlistID,
       m_zID := if (zID.lookup "zs").isSome then zID else zID ++ [("zs", 0)],
       m_zsID := (zID.lookup "zs").getD 0,
       m_gridID := lib.vlistGrid vlistID 0,
       m_dimsAxis := dimsa },
     none)

/-- C10: `CDI::open_impl` throws a `RuntimeError` ("file reading not
supported with CDI-PIO in PISM") exactly when the requested mode is
`PISM_READONLY`, before mutating any member state (on that path the members
are returned unchanged); any other mode succeeds, so a CDI-backed file can
only ever be opened for writing. -/
theorem open_impl_rejects_readonly (lib : CDILib) (st : CDIState) (fname : String)
    (mode : IO_Mode) (FileID : ℤ) (dimsa : List (String × ℕ)) :
    ((open_impl lib st fname mode FileID dimsa).2 ≠ none ↔ mode = .PISM_READONLY)
    ∧ (mode = .PISM_READONLY →
        (open_impl lib st fname mode FileID dimsa).1 = st
        ∧ (open_impl lib st fname mode FileID dimsa).2 =
            some (.RuntimeError "file reading not supported with CDI-PIO in PISM")) := by
  by_cases h : mode = IO_Mode.PISM_READONLY
  · refine ⟨⟨fun _ => h, fun _ => ?_⟩, fun _ => ⟨?_, ?_⟩⟩ <;>
      simp [open_impl, h]
  · refine ⟨⟨fun hc => absurd ?_ hc, fun hc => absurd hc h⟩, fun hc => absurd hc h⟩
    simp [open_impl, h]

/-- A trivial concrete CDI library and member state for the C10 witness. -/
def cdilib0 : CDILib where
  streamInqVlist := fun _ => 0
  vlistInqTaxis := fun _ => 0
  vlistGrid := fun _ _ => 0
  varsOf := fun _ => []
  zaxesOf := fun _ => []

/-- Witness for `open_impl_rejects_readonly`: opening in `PISM_READONLY`
mode leaves the members unchanged and yields the runtime error. -/
theorem open_impl_rejects_readonly_witness :
    (open_impl cdilib0 ⟨0, 0, 0, [], [], 0, 0, []⟩ "file.nc" .PISM_READONLY 7 []).1 =
      ⟨0, 0, 0, [], [], 0, 0, []⟩
    ∧ (open_impl cdilib0 ⟨0, 0, 0, [], [], 0, 0, []⟩ "file.nc" .PISM_READONLY 7 []).2 =
        some (.RuntimeError "file reading not supported with CDI-PIO in PISM") := by
  exact (open_impl_rejects_readonly cdilib0 ⟨0, 0, 0, [], [], 0, 0, []⟩ "file.nc"
    .PISM_READONLY 7 []).2 rfl

end PISM
